import Mathlib

/-!
Verification of the carrier-logins statement-fetching service.

This file gives a shallow Lean embedding of the service's core components
and proves the specified properties about them:

* `src/services/statement-processor.ts` — `filterStatementsByDate`,
  `validatePdfBuffer`, `processStatement`, `processStatements`;
* `src/services/workflow-manager.ts` — `identifyCarrier`,
  `extractReverseDomainSlug`, `getCanonicalCarrierSlug`, `executeWorkflow`;
* `src/services/rails-client.ts` — `mapErrorToFailureReason`;
* `src/server.ts` — `processJobAsync`.

Modelling conventions:

* Async TypeScript functions that can throw are embedded as total Lean
  functions returning `Except String α`; a thrown `Error(msg)` is
  `.error msg`, and `try/catch` becomes a `match` on that value.
* External collaborators (axios download, Cloudinary upload, Stagehand
  session creation, the carrier workflow modules, the Admin API) are
  parameters of the embedded functions: each call site receives the
  collaborator's outcome (`Except`) from the parameter, exactly where
  the source awaits it.  Observable calls to collaborators are recorded
  in explicit event lists so that "never calls X" claims are statable.
* JavaScript `new Date(s)` applied to the ISO `YYYY-MM-DD` strings the
  service documents for `statementDate` and `accountingPeriodStartDate`
  is modelled by `parseDate`; an unparseable string gives `none`
  (JS `Invalid Date`, whose time value is `NaN`).  Since `NaN`
  comparisons are always false, `jsDateGtB` returns `false` whenever
  either side fails to parse.  On valid dates the JS `>` on time values
  agrees with lexicographic order on `(year, month, day)`.
* JavaScript `new URL(s)` is modelled by its result: a parsed URL is a
  `ParsedURL` (lower-cased by `identifyCarrier` as in the source), and a
  string that fails URL parsing is the `none` case.
* Node `Buffer`s are `List Nat` (byte values); JS truthiness of an
  optional string (`undefined` and `""` are falsy, a `Buffer` object is
  always truthy) is modelled by `jsTruthyStr` / `Option.isSome`.
-/

/-- Calendar date as parsed from an ISO `YYYY-MM-DD` string. -/
structure Date where
  year : Nat
  month : Nat
  day : Nat
deriving DecidableEq, Repr

/-- Strict calendar order on dates: lexicographic on (year, month, day).
On valid calendar dates this coincides with JS comparison of time values. -/
def Date.ltB (a b : Date) : Bool :=
  a.year < b.year ||
    (a.year = b.year && (a.month < b.month || (a.month = b.month && a.day < b.day)))

/-- Gregorian leap-year rule, as used by JS `Date` for `YYYY-MM-DD` validation. -/
def isLeapYear (y : Nat) : Bool :=
  (y % 4 = 0 && y % 100 ≠ 0) || y % 400 = 0

/-- Number of days in a month (`m` is 1-based); `0` for an invalid month. -/
def daysInMonth (y m : Nat) : Nat :=
  if m = 1 ∨ m = 3 ∨ m = 5 ∨ m = 7 ∨ m = 8 ∨ m = 10 ∨ m = 12 then 31
  else if m = 4 ∨ m = 6 ∨ m = 9 ∨ m = 11 then 30
  else if m = 2 then (if isLeapYear y then 29 else 28)
  else 0

/-- Splitting of a character list at a separator character, accumulator
form: models JS `s.split(sep)` for a one-character separator. -/
def jsSplitAux (sep : Char) : List Char → List Char → List (List Char)
  | [], acc => [acc.reverse]
  | c :: rest, acc =>
    if c = sep then acc.reverse :: jsSplitAux sep rest []
    else jsSplitAux sep rest (c :: acc)

/-- JS `s.split(sep)` for a one-character separator. -/
def jsSplit (sep : Char) (s : String) : List String :=
  (jsSplitAux sep s.data []).map String.mk

/-- JS `s.toLowerCase()` on the ASCII strings this service handles. -/
def jsToLower (s : String) : String :=
  String.mk (s.data.map Char.toLower)

/-- Numeric value of a string of decimal digits (only applied after an
all-digits check). -/
def digitsVal (l : List Char) : Nat :=
  l.foldl (fun acc c => acc * 10 + (c.toNat - 48)) 0

/-- JS `new Date(s)` on the documented ISO `YYYY-MM-DD` input format:
`some` of the calendar date when `s` is a well-formed, valid date
(4-digit year, 2-digit month and day, in range), `none` (Invalid Date)
otherwise. -/
def parseDate (s : String) : Option Date :=
  match jsSplit '-' s with
  | [ys, ms, ds] =>
    if ys.data.length = 4 && ms.data.length = 2 && ds.data.length = 2
        && ys.data.all Char.isDigit && ms.data.all Char.isDigit
        && ds.data.all Char.isDigit then
      let y := digitsVal ys.data
      let m := digitsVal ms.data
      let d := digitsVal ds.data
      if 1 ≤ m && m ≤ 12 && 1 ≤ d && d ≤ daysInMonth y m then
        some ⟨y, m, d⟩
      else none
    else none
  | _ => none

/-- JS `new Date(s) > new Date(c)`: true iff both sides parse and the first
is strictly later.  `NaN` (Invalid Date) comparisons are always false. -/
def jsDateGtB (s c : String) : Bool :=
  match parseDate s, parseDate c with
  | some ds, some dc => Date.ltB dc ds
  | _, _ => false

/-- One raw statement produced by a carrier workflow
(`Statement` in `src/types/index.ts`; optional fields are `Option`). -/
structure Statement where
  pdfUrl : Option String
  fileBuffer : Option (List Nat)
  filename : Option String
  statementDate : String
deriving DecidableEq, Repr

/-- Durable-storage reference returned by the Cloudinary upload
(`CloudinaryAttachment` in `src/types/index.ts`). -/
structure CloudinaryAttachment where
  public_id : String
  format : String
  url : String
  title : String
  etag : String
deriving DecidableEq, Repr

/-- Options passed to `uploadPdf` by `processStatement` (carrier name,
filename, and the metadata fields `statement_date` / `carrier`). -/
structure UploadOptions where
  carrierName : String
  filename : String
  statement_date : String
  carrier : String
deriving DecidableEq, Repr

/-- Embeds `filterStatementsByDate` from
`src/services/statement-processor.ts`: keep the statements whose
`statementDate`, compared as a JS `Date`, is strictly greater than the
cutoff built from `accountingPeriodStartDate`. -/
def filterStatementsByDate (statements : List Statement)
    (accountingPeriodStartDate : String) : List Statement :=
  statements.filter (fun statement =>
    jsDateGtB statement.statementDate accountingPeriodStartDate)

/-- ASCII bytes of the `%PDF` magic header. -/
def pdfMagic : List Nat := [37, 80, 68, 70]

/-- Decoding of a byte list through `Buffer.toString('ascii')`. -/
def asciiOfBytes (bytes : List Nat) : String :=
  String.mk (bytes.map (fun b => Char.ofNat b))

/-- Embeds `validatePdfBuffer` from `src/services/statement-processor.ts`:
an empty buffer or one whose first four bytes are not `%PDF` throws. -/
def validatePdfBuffer (buffer : List Nat) : Except String Unit :=
  if buffer.length = 0 then
    .error "PDF buffer is empty or null"
  else if buffer.take 4 = pdfMagic then
    .ok ()
  else
    .error ("Invalid PDF: expected header \"%PDF\" but got \""
      ++ asciiOfBytes (buffer.take 4) ++ "\" (bytes: "
      ++ String.intercalate " " ((buffer.take 4).map toString) ++ ")")

/-- JS `s || default` for an optional string: `undefined` and the empty
string are falsy and give the default. -/
def jsOrStr (o : Option String) (d : String) : String :=
  match o with
  | some s => if s = "" then d else s
  | none => d

/-- JS truthiness of an optional string (`undefined` and `""` are falsy). -/
def jsTruthyStr (o : Option String) : Bool :=
  match o with
  | some s => s ≠ ""
  | none => false

/-- Record of the collaborator calls made while processing one statement:
the URLs passed to `downloadPdf` and the arguments passed to `uploadPdf`. -/
structure StmtCallLog where
  downloads : List String
  uploads : List (List Nat × UploadOptions)
deriving DecidableEq, Repr

/-- Embeds `processStatement` from `src/services/statement-processor.ts`.
The collaborators `downloadPdf`, `extractFilename` and `uploadPdf` are
parameters (`download`, `extractName`, `upload`); the returned log records
the calls made to the download and upload collaborators.  The source throws
when neither source of bytes is (truthily) present, prefers `fileBuffer`
over `pdfUrl`, defaults the filename to `"statement.pdf"` on the buffer
path, validates the bytes, then uploads with the statement's date and the
carrier slug as metadata. -/
def processStatement (download : String → Except String (List Nat))
    (extractName : String → String)
    (upload : List Nat → UploadOptions → Except String CloudinaryAttachment)
    (statement : Statement) (carrierSlug : String) :
    Except String CloudinaryAttachment × StmtCallLog :=
  if statement.fileBuffer.isNone && !(jsTruthyStr statement.pdfUrl) then
    (.error "Statement has neither pdfUrl nor fileBuffer", ⟨[], []⟩)
  else
    match statement.fileBuffer with
    | some buffer =>
      let filename := jsOrStr statement.filename "statement.pdf"
      let opts : UploadOptions :=
        ⟨carrierSlug, filename, statement.statementDate, carrierSlug⟩
      (match validatePdfBuffer buffer with
       | .error e => (.error e, ⟨[], []⟩)
       | .ok _ => (upload buffer opts, ⟨[], [(buffer, opts)]⟩))
    | none =>
      let url := statement.pdfUrl.getD ""
      match download url with
      | .error e => (.error e, ⟨[url], []⟩)
      | .ok pdfBuffer =>
        let filename := extractName url
        let opts : UploadOptions :=
          ⟨carrierSlug, filename, statement.statementDate, carrierSlug⟩
        match validatePdfBuffer pdfBuffer with
        | .error e => (.error e, ⟨[url], []⟩)
        | .ok _ => (upload pdfBuffer opts, ⟨[url], [(pdfBuffer, opts)]⟩)

/-- Result of a batch run of `processStatements`: the collected
attachments, the statements actually handed to `processStatement`, and
the union of the per-statement collaborator-call logs. -/
structure BatchResult where
  attachments : List CloudinaryAttachment
  processed : List Statement
  log : StmtCallLog
deriving DecidableEq, Repr

/-- Loop body of `processStatements`: for each statement, run the
per-statement processor; push the attachment on success, log and continue
on failure (the `try/catch` inside the `for` loop of the source). -/
def runBatch
    (procOne : Statement → Except String CloudinaryAttachment × StmtCallLog) :
    List Statement → BatchResult
  | [] => ⟨[], [], ⟨[], []⟩⟩
  | statement :: rest =>
    let r := procOne statement
    let b := runBatch procOne rest
    { attachments :=
        match r.1 with
        | .ok a => a :: b.attachments
        | .error _ => b.attachments,
      processed := statement :: b.processed,
      log := ⟨r.2.downloads ++ b.log.downloads, r.2.uploads ++ b.log.uploads⟩ }

/-- Embeds `processStatements` from `src/services/statement-processor.ts`:
filter by date, return immediately when nothing is left, otherwise process
each filtered statement in order, tolerating per-item failures.  The
per-statement processor (`processStatement` applied to its collaborators
and the carrier slug) is the parameter `procOne`. -/
def processStatements
    (procOne : Statement → Except String CloudinaryAttachment × StmtCallLog)
    (statements : List Statement)
    (accountingPeriodStartDate : String) : BatchResult :=
  let filteredStatements :=
    filterStatementsByDate statements accountingPeriodStartDate
  if filteredStatements.length = 0 then ⟨[], [], ⟨[], []⟩⟩
  else runBatch procOne filteredStatements

/-- Result of a parsed login URL (`new URL(loginUrl)` succeeded): the
components `identifyCarrier` can observe.  A string that fails URL
parsing is represented by `none` at the use sites. -/
structure ParsedURL where
  hostname : String
  pathname : String
deriving DecidableEq, Repr

/-- Embeds `extractReverseDomainSlug` from
`src/services/workflow-manager.ts`: fewer than two dot-separated labels
gives the hostname with dots replaced by underscores; otherwise the last
two labels joined as `"{tld}_{domain}"`. -/
def extractReverseDomainSlug (hostname : String) : String :=
  let parts := jsSplit '.' hostname
  if parts.length < 2 then
    String.mk (hostname.data.map (fun c => if c = '.' then '_' else c))
  else
    parts.getD (parts.length - 1) "" ++ "_" ++ parts.getD (parts.length - 2) ""

/-- Embeds `getCanonicalCarrierSlug` from
`src/services/workflow-manager.ts`: membership check of the derived slug
against the known-carrier set, normalizing the two advantage-partners
domains; anything else is `"unknown"`. -/
def getCanonicalCarrierSlug (slug : String) : String :=
  if slug = "net_abacus" then "net_abacus"
  else if slug = "com_advantage" ∨ slug = "com_advantagepartners" then
    "com_advantagepartners"
  else if slug = "com_amerisafe" then "com_amerisafe"
  else "unknown"

/-- Embeds `identifyCarrier` from `src/services/workflow-manager.ts`.
The argument is the outcome of `new URL(loginUrl)`: `none` when URL
parsing threw (the `catch` returns `"unknown"`), otherwise the parsed
URL whose hostname is lower-cased and normalized to a canonical slug. -/
def identifyCarrier (parsedLoginUrl : Option ParsedURL) : String :=
  match parsedLoginUrl with
  | none => "unknown"
  | some url =>
    getCanonicalCarrierSlug (extractReverseDomainSlug (jsToLower url.hostname))

/-- Convenience for stating suffix-label properties: `lastLabels h i` is
the `i`-th label from the end of the lower-cased hostname `h`
(`lastLabels h 1` is the TLD, `lastLabels h 2` the second-level domain). -/
def lastLabels (hostname : String) (i : Nat) : String :=
  let parts := jsSplit '.' (jsToLower hostname)
  parts.getD (parts.length - i) ""

/-- Job submitted to the workflow manager (`WorkflowJob` in
`src/types/index.ts`), with the `login_url` field `executeWorkflow` reads. -/
structure WorkflowJob where
  job_id : String
  login_url : String
  accounting_period_start_date : String
deriving DecidableEq, Repr

/-- Contract every carrier routine returns (`WorkflowResult` in
`src/types/index.ts`). -/
structure WorkflowResult where
  success : Bool
  statements : List Statement
  error : Option String
deriving DecidableEq, Repr

/-- Observable collaborator calls of `executeWorkflow`: browser-session
acquisition (`createStagehandClient`), running a carrier workflow script,
and releasing the session (`client.close`). -/
inductive DispatchEvent where
  | acquire
  | runScript (slug : String)
  | release
deriving DecidableEq, Repr

/-- Embeds `executeWorkflow` from `src/services/workflow-manager.ts`.
`acquire` is the outcome of `createStagehandClient()`; `runW` gives, per
registered slug, the outcome of importing and running that workflow
module (an `.error` covers both an import failure and a script throw,
caught by the source's `catch`).  The event list records acquisition,
script runs, and the `finally` release (which runs whenever a client was
created; a failure of `close` itself is only logged and does not change
the result).  The `"unknown"` rejection happens before any acquisition. -/
def executeWorkflow (acquire : Except String Unit)
    (runW : String → WorkflowJob → Except String WorkflowResult)
    (carrierName : String) (job : WorkflowJob) :
    WorkflowResult × List DispatchEvent :=
  if carrierName = "unknown" then
    ({ success := false, statements := [],
       error := some ("Unknown carrier for URL: " ++ job.login_url) }, [])
  else
    match acquire with
    | .error e =>
      ({ success := false, statements := [],
         error := some ("Failed to execute workflow: " ++ e) }, [.acquire])
    | .ok _ =>
      if carrierName = "net_abacus" ∨ carrierName = "com_advantagepartners"
          ∨ carrierName = "com_amerisafe" then
        match runW carrierName job with
        | .ok result => (result, [.acquire, .runScript carrierName, .release])
        | .error e =>
          ({ success := false, statements := [],
             error := some ("Failed to execute workflow: " ++ e) },
           [.acquire, .runScript carrierName, .release])
      else
        ({ success := false, statements := [],
           error := some ("No workflow script implemented for carrier: "
             ++ carrierName) }, [.acquire, .release])

/-- Closed failure taxonomy reported to the Admin API
(`UpdateJobStatusRequest['failure_reason']` in `src/types/index.ts`). -/
inductive FailureReason where
  | invalid_credentials
  | requires_mfa
  | carrier_unavailable
  | missing_instruction
  | password_change
deriving DecidableEq, Repr

/-- Substring test on character lists (`haystack` given second
positionally): true iff `sub` occurs contiguously. -/
def hasSub (sub : List Char) : List Char → Bool
  | [] => sub.isEmpty
  | c :: t => sub.isPrefixOf (c :: t) || hasSub sub t

/-- JS `s.includes(sub)`: contiguous substring test on strings. -/
def containsSub (s sub : String) : Bool :=
  hasSub sub.data s.data

/-- Embeds `mapErrorToFailureReason` from `src/services/rails-client.ts`:
lower-case the message, then match it against the keyword sets in source
order; a message matching none of them defaults to `carrier_unavailable`. -/
def mapErrorToFailureReason (errorMessage : String) : FailureReason :=
  let lowerError := jsToLower errorMessage
  if containsSub lowerError "invalid credentials"
      || containsSub lowerError "login failed" then
    .invalid_credentials
  else if containsSub lowerError "mfa" || containsSub lowerError "two-factor" then
    .requires_mfa
  else if containsSub lowerError "unavailable" || containsSub lowerError "timeout"
      || containsSub lowerError "network" then
    .carrier_unavailable
  else if containsSub lowerError "unknown carrier"
      || containsSub lowerError "script not found" then
    .missing_instruction
  else if containsSub lowerError "password expired"
      || containsSub lowerError "must change password" then
    .password_change
  else
    .carrier_unavailable

/-- Payload of one `updateJobStatus` call
(`UpdateJobStatusRequest` in `src/types/index.ts`). -/
structure UpdateJobStatusRequest where
  status : String
  failure_reason : Option FailureReason
  notes : Option String
deriving DecidableEq, Repr

/-- Observable events of one `processJobAsync` run, in program order:
the workflow step returning (with its `success` flag) or throwing, the
statement-processing step returning or throwing, the inbox-creation call
(with its outcome), and each Admin API job-status call with its payload
and outcome. -/
inductive JobEvent where
  | workflowCompleted (success : Bool)
  | workflowThrew
  | pipelineCompleted
  | pipelineThrew
  | inboxCalled (ok : Bool)
  | statusCall (req : UpdateJobStatusRequest) (ok : Bool)
deriving DecidableEq, Repr

/-- Outcomes of the collaborator calls one `processJobAsync` run can
make: the workflow step (`runCarrierAutomation`), the statement pipeline
(`processStatements`), the inbox creation (`createInboxStatements`), and
the `n`-th Admin API job-status call (`updateJobStatus`). -/
structure JobEnv where
  runAutomation : Except String WorkflowResult
  processResult : Except String (List CloudinaryAttachment)
  createInbox : Except String (List String)
  statusOutcome : Nat → Except String Unit

/-- Embeds the generic `catch` block at the end of `processJobAsync` in
`src/server.ts`: report `status: 'failed'` with
`mapErrorToFailureReason(error.message)` and the message as notes; a
throw of this status call itself is only logged (the nested `catch`). -/
def catchAllReport (env : JobEnv) (n : Nat) (e : String) : List JobEvent :=
  let req : UpdateJobStatusRequest :=
    { status := "failed", failure_reason := some (mapErrorToFailureReason e),
      notes := some e }
  match env.statusOutcome n with
  | .ok _ => [.statusCall req true]
  | .error _ => [.statusCall req false]

/-- Embeds `processJobAsync` from `src/server.ts` as the trace of its
observable events.  Control flow follows the source: run the workflow;
on a failure result report failed with the classified reason; otherwise
run the pipeline, create inbox entries when attachments exist, and report
success (with a no-new-statements note when empty).  Any throw from these
steps reaches the final `catch`, which makes one more (classified) failed
status report; a throw from a status call inside the `try` also reaches
that `catch`. -/
def processJobAsync (env : JobEnv) : List JobEvent :=
  match env.runAutomation with
  | .error e => .workflowThrew :: catchAllReport env 0 e
  | .ok result =>
    if result.success then
      match env.processResult with
      | .error e =>
        .workflowCompleted true :: .pipelineThrew :: catchAllReport env 0 e
      | .ok attachments =>
        if 0 < attachments.length then
          match env.createInbox with
          | .error e =>
            [.workflowCompleted true, .pipelineCompleted, .inboxCalled false]
              ++ catchAllReport env 0 e
          | .ok _ =>
            let req : UpdateJobStatusRequest :=
              { status := "success", failure_reason := none, notes := none }
            match env.statusOutcome 0 with
            | .ok _ =>
              [.workflowCompleted true, .pipelineCompleted, .inboxCalled true,
               .statusCall req true]
            | .error e2 =>
              [.workflowCompleted true, .pipelineCompleted, .inboxCalled true,
               .statusCall req false] ++ catchAllReport env 1 e2
        else
          let req : UpdateJobStatusRequest :=
            { status := "success", failure_reason := none,
              notes := some "No new statements found after date filtering" }
          match env.statusOutcome 0 with
          | .ok _ =>
            [.workflowCompleted true, .pipelineCompleted, .statusCall req true]
          | .error e2 =>
            [.workflowCompleted true, .pipelineCompleted, .statusCall req false]
              ++ catchAllReport env 1 e2
    else
      let req : UpdateJobStatusRequest :=
        { status := "failed",
          failure_reason :=
            some (mapErrorToFailureReason (result.error.getD "Unknown error")),
          notes := result.error }
      match env.statusOutcome 0 with
      | .ok _ => [.workflowCompleted false, .statusCall req true]
      | .error e2 =>
        [.workflowCompleted false, .statusCall req false]
          ++ catchAllReport env 1 e2

/-- Projection of a trace to its job-status calls (payload and outcome). -/
def statusEvents (t : List JobEvent) : List (UpdateJobStatusRequest × Bool) :=
  t.filterMap (fun e =>
    match e with
    | .statusCall r ok => some (r, ok)
    | _ => none)

/-- Projection of a trace to the job-status payloads sent. -/
def statusReqs (t : List JobEvent) : List UpdateJobStatusRequest :=
  (statusEvents t).map (fun p => p.1)

/-- True for the events marking that the workflow step has finished
(returned or thrown). -/
def JobEvent.isWorkflowDone : JobEvent → Bool
  | .workflowCompleted _ => true
  | .workflowThrew => true
  | _ => false

/-- True for the events marking that the pipeline step has finished
(returned or thrown). -/
def JobEvent.isPipelineDone : JobEvent → Bool
  | .pipelineCompleted => true
  | .pipelineThrew => true
  | _ => false

/-- True for job-status call events. -/
def JobEvent.isStatus : JobEvent → Bool
  | .statusCall _ _ => true
  | _ => false

/-- No status call occurs in `t` before the first event satisfying `p`. -/
def noStatusBefore (p : JobEvent → Bool) (t : List JobEvent) : Bool :=
  (t.takeWhile (fun e => !(p e))).all (fun e => !(e.isStatus))

/-- Concrete attachment fixture used by witnesses. -/
def wAtt : CloudinaryAttachment :=
  ⟨"supplier_statements/net_abacus/statement", "pdf",
   "https://cloudinary.example/statement.pdf", "statement.pdf", "etag1"⟩

/-- Concrete URL-backed statement fixture with the given date. -/
def wStmt (d : String) : Statement :=
  { pdfUrl := some "https://carrier.example/s.pdf", fileBuffer := none,
    filename := none, statementDate := d }

/-- Concrete per-statement processor that fails exactly on the statement
dated 2024-02-15 and succeeds on every other statement. -/
def wProcOne : Statement → Except String CloudinaryAttachment × StmtCallLog :=
  fun st =>
    if st.statementDate = "2024-02-15" then
      (.error "Invalid PDF", ⟨[], []⟩)
    else (.ok wAtt, ⟨[], []⟩)

/-- Concrete statement batch fixture for the partial-failure witness. -/
def wBatch : List Statement :=
  [wStmt "2024-01-15", wStmt "2024-02-15", wStmt "2024-03-15"]

/-- Concrete well-formed PDF bytes (the `%PDF` header plus one byte). -/
def wBuf : List Nat := [37, 80, 68, 70, 49]

/-- Concrete statement fixture carrying both a buffer and a URL. -/
def wStmtBoth : Statement :=
  { pdfUrl := some "https://carrier.example/s.pdf", fileBuffer := some wBuf,
    filename := none, statementDate := "2024-01-15" }

/-- Concrete download collaborator fixture. -/
def wDownload : String → Except String (List Nat) := fun _ => .ok wBuf

/-- Concrete filename-extraction collaborator fixture. -/
def wName : String → String := fun _ => "statement.pdf"

/-- Concrete upload collaborator fixture. -/
def wUpload : List Nat → UploadOptions → Except String CloudinaryAttachment :=
  fun _ _ => .ok wAtt

/-- Concrete workflow job fixture. -/
def wJob : WorkflowJob :=
  { job_id := "job-1", login_url := "https://portal.abacus.net/login",
    accounting_period_start_date := "2024-01-01" }

/-- Concrete registered-workflow collaborator fixture. -/
def wRunW : String → WorkflowJob → Except String WorkflowResult :=
  fun _ _ => .ok ⟨true, [], none⟩

/-- Concrete parsed-URL fixture with extra subdomain, path and mixed case. -/
def wU1 : ParsedURL := ⟨"Portal.Abacus.NET", "/login"⟩

/-- Concrete parsed-URL fixture with the bare two-label host. -/
def wU2 : ParsedURL := ⟨"abacus.net", "/"⟩

/-- Orchestrator environment in which the pipeline step throws with an
MFA-flavoured message while everything else succeeds. -/
def wEnvMfaThrow : JobEnv :=
  { runAutomation := .ok ⟨true, [], none⟩,
    processResult := .error "MFA required",
    createInbox := .ok [],
    statusOutcome := fun _ => .ok () }

/-- Orchestrator environment in which the workflow step throws with a
message matching no specific keyword set. -/
def wEnvBoom : JobEnv :=
  { runAutomation := .error "boom",
    processResult := .ok [],
    createInbox := .ok [],
    statusOutcome := fun _ => .ok () }

/-- Orchestrator environment in which the workflow returns a failure
result and the first Admin API status call itself throws. -/
def wEnvStatusThrow : JobEnv :=
  { runAutomation := .ok ⟨false, [], some "boom"⟩,
    processResult := .ok [],
    createInbox := .ok [],
    statusOutcome := fun n => if n = 0 then .error "Admin API error" else .ok () }

/-- Orchestrator environment in which every step succeeds and the
pipeline produces one attachment. -/
def wEnvHappy : JobEnv :=
  { runAutomation := .ok ⟨true, [], none⟩,
    processResult := .ok [wAtt],
    createInbox := .ok ["inbox-1"],
    statusOutcome := fun _ => .ok () }

/-- Spec-side predicate for the amended status discipline: when a trace
holds two or more status calls, the first one must have thrown (only a
throwing first report triggers the catch-all's second report). -/
def secondCallOnlyAfterThrow : List (UpdateJobStatusRequest × Bool) → Bool
  | a :: _ :: _ => !a.2
  | _ => true

theorem runBatch_attachments
    (procOne : Statement → Except String CloudinaryAttachment × StmtCallLog)
    (l : List Statement) :
    (runBatch procOne l).attachments =
      l.filterMap (fun st => ((procOne st).1).toOption) := by
  induction l with
  | nil => rfl
  | cons st rest ih =>
    simp only [runBatch, List.filterMap_cons]
    cases h : (procOne st).1 <;> simp [h, Except.toOption, ih]

theorem processStatements_attachments
    (procOne : Statement → Except String CloudinaryAttachment × StmtCallLog)
    (statements : List Statement) (cutoff : String) :
    (processStatements procOne statements cutoff).attachments =
      (filterStatementsByDate statements cutoff).filterMap
        (fun st => ((procOne st).1).toOption) := by
  by_cases h : (filterStatementsByDate statements cutoff).length = 0
  · rw [List.length_eq_zero] at h
    simp [processStatements, h]
  · simp [processStatements, h, runBatch_attachments]

theorem filterMap_eraseIdx_of_none {α β : Type} (f : α → Option β)
    (l : List α) (k : Nat) (hk : k < l.length)
    (h : f (l.get ⟨k, hk⟩) = none) :
    l.filterMap f = (l.eraseIdx k).filterMap f := by
  induction l generalizing k with
  | nil => simp at hk
  | cons a t ih =>
    cases k with
    | zero =>
      simp only [List.get] at h
      simp [List.eraseIdx_cons_zero, List.filterMap_cons, h]
    | succ k =>
      rw [List.get_cons_succ] at h
      rw [List.eraseIdx_cons_succ, List.filterMap_cons, List.filterMap_cons,
        ih k (by simpa using hk) h]

theorem length_filterMap_all_isSome {α β : Type} (f : α → Option β)
    (l : List α) (h : ∀ x ∈ l, (f x).isSome = true) :
    (l.filterMap f).length = l.length := by
  induction l with
  | nil => rfl
  | cons a t ih =>
    obtain ⟨b, hb⟩ := Option.isSome_iff_exists.mp (h a (by simp))
    simp [List.filterMap_cons, hb, ih (fun x hx => h x (by simp [hx]))]

/-- C1: `processStatements` tolerates a single per-item failure: when,
among the date-eligible (filtered) statements, exactly the one at
position `k` fails in `processStatement` (buffer resolution, PDF
validation or upload — all folded into the per-item outcome) and all
others succeed, the run never throws (the embedding is total), the
returned attachments are exactly the successful results of the filtered
statements with item `k` removed, in their original relative order, the
output length is `n - 1`, and
`output.length ≤ filtered.length ≤ input.length`. -/
theorem processStatements_partial_failure
    (procOne : Statement → Except String CloudinaryAttachment × StmtCallLog)
    (statements : List Statement) (cutoff : String) (k : Nat)
    (hk : k < (filterStatementsByDate statements cutoff).length)
    (hfail : ((procOne ((filterStatementsByDate statements cutoff).get
      ⟨k, hk⟩)).1).toOption = none)
    (hsucc : ∀ st ∈ (filterStatementsByDate statements cutoff).eraseIdx k,
      ((procOne st).1).toOption.isSome = true) :
    (processStatements procOne statements cutoff).attachments =
      ((filterStatementsByDate statements cutoff).eraseIdx k).filterMap
        (fun st => ((procOne st).1).toOption) ∧
    (processStatements procOne statements cutoff).attachments.length =
      (filterStatementsByDate statements cutoff).length - 1 ∧
    (processStatements procOne statements cutoff).attachments.length ≤
      (filterStatementsByDate statements cutoff).length ∧
    (filterStatementsByDate statements cutoff).length ≤ statements.length := by
  have h1 : (processStatements procOne statements cutoff).attachments =
      ((filterStatementsByDate statements cutoff).eraseIdx k).filterMap
        (fun st => ((procOne st).1).toOption) := by
    rw [processStatements_attachments,
      filterMap_eraseIdx_of_none _ _ k hk hfail]
  have hlen : (processStatements procOne statements cutoff).attachments.length =
      (filterStatementsByDate statements cutoff).length - 1 := by
    rw [h1, length_filterMap_all_isSome _ _ hsucc, List.length_eraseIdx,
      if_pos hk]
  refine ⟨h1, hlen, by rw [hlen]; omega, ?_⟩
  unfold filterStatementsByDate
  exact List.length_filter_le _ _

theorem processStatements_partial_failure_witness :
    (processStatements wProcOne wBatch "2024-01-01").attachments.length =
      (filterStatementsByDate wBatch "2024-01-01").length - 1 :=
  (processStatements_partial_failure wProcOne wBatch "2024-01-01" 1
    (by decide) (by decide) (by decide)).2.1

/-- C2: `filterStatementsByDate` returns exactly the subsequence of the
input whose `statementDate`, parsed as a calendar date, is strictly
greater than the parsed cutoff: the result is a sublist of the input
(hence preserves input order), it equals the input filtered by the
spec-side predicate "date parses to `d` with `cutoff < d`" (so a
statement with an unparseable date is excluded), and a statement whose
date equals the cutoff is not in the result. -/
theorem filterStatementsByDate_strictly_after_cutoff
    (statements : List Statement) (cutoff : String) (c : Date)
    (hc : parseDate cutoff = some c) :
    (filterStatementsByDate statements cutoff).Sublist statements ∧
    filterStatementsByDate statements cutoff =
      statements.filter (fun st =>
        match parseDate st.statementDate with
        | some d => Date.ltB c d
        | none => false) ∧
    ∀ st ∈ statements, parseDate st.statementDate = some c →
      st ∉ filterStatementsByDate statements cutoff := by
  refine ⟨List.filter_sublist _, ?_, ?_⟩
  · apply List.filter_congr
    intro st _
    unfold jsDateGtB
    rw [hc]
    cases parseDate st.statementDate <;> rfl
  · intro st _ hps hmem
    unfold filterStatementsByDate at hmem
    have h2 := (List.mem_filter.mp hmem).2
    simp [jsDateGtB, hc, hps, Date.ltB] at h2

theorem filterStatementsByDate_strictly_after_cutoff_witness :
    filterStatementsByDate wBatch "2024-02-15" =
      wBatch.filter (fun st =>
        match parseDate st.statementDate with
        | some d => Date.ltB ⟨2024, 2, 15⟩ d
        | none => false) :=
  (filterStatementsByDate_strictly_after_cutoff wBatch "2024-02-15"
    ⟨2024, 2, 15⟩ (by decide)).2.1

/-- C10: when the cutoff string itself does not parse as a valid
calendar date, every JS date comparison against it is false, so
`filterStatementsByDate` on a (non-empty) batch returns `[]`, and
`processStatements` returns the empty batch result — no statement is
handed to `processStatement` (`processed = []`), and no download,
validation or upload is attempted (the collaborator-call log is empty). -/
theorem processStatements_invalid_cutoff
    (statements : List Statement) (cutoff : String)
    (hc : parseDate cutoff = none) (_hne : statements ≠ []) :
    filterStatementsByDate statements cutoff = [] ∧
    ∀ procOne, processStatements procOne statements cutoff =
      ⟨[], [], ⟨[], []⟩⟩ := by
  have hf : filterStatementsByDate statements cutoff = [] := by
    unfold filterStatementsByDate
    rw [List.filter_eq_nil_iff]
    intro st _
    unfold jsDateGtB
    rw [hc]
    cases parseDate st.statementDate <;> simp
  refine ⟨hf, fun procOne => ?_⟩
  simp [processStatements, hf]

theorem processStatements_invalid_cutoff_witness :
    filterStatementsByDate wBatch "not-a-date" = [] ∧
    processStatements wProcOne wBatch "not-a-date" = ⟨[], [], ⟨[], []⟩⟩ :=
  ⟨(processStatements_invalid_cutoff wBatch "not-a-date" (by decide)
      (by decide)).1,
   (processStatements_invalid_cutoff wBatch "not-a-date" (by decide)
      (by decide)).2 wProcOne⟩

/-- C3: carrier identification is determined by the last two
dot-separated hostname labels.  For any two parsed login URLs whose
lower-cased hostnames have at least two labels and agree on the last two
labels, `identifyCarrier` returns the same slug, independently of extra
subdomains, the path, and the letter case of the host; `new URL` parse
failure (`none`) gives `"unknown"`; the derived slug is
`"{tld}_{domain}"` (last label first) normalized by
`getCanonicalCarrierSlug`; and any slug outside the known-carrier set
maps to `"unknown"`. -/
theorem identifyCarrier_suffix_determined (u1 u2 : ParsedURL)
    (h1 : 2 ≤ (jsSplit '.' (jsToLower u1.hostname)).length)
    (h2 : 2 ≤ (jsSplit '.' (jsToLower u2.hostname)).length)
    (htld : lastLabels u1.hostname 1 = lastLabels u2.hostname 1)
    (hdom : lastLabels u1.hostname 2 = lastLabels u2.hostname 2) :
    identifyCarrier (some u1) = identifyCarrier (some u2) ∧
    identifyCarrier none = "unknown" ∧
    identifyCarrier (some u1) =
      getCanonicalCarrierSlug
        (lastLabels u1.hostname 1 ++ "_" ++ lastLabels u1.hostname 2) ∧
    ∀ s : String, s ≠ "net_abacus" → s ≠ "com_advantage" →
      s ≠ "com_advantagepartners" → s ≠ "com_amerisafe" →
      getCanonicalCarrierSlug s = "unknown" := by
  have hslug : ∀ u : ParsedURL,
      2 ≤ (jsSplit '.' (jsToLower u.hostname)).length →
      identifyCarrier (some u) =
        getCanonicalCarrierSlug
          (lastLabels u.hostname 1 ++ "_" ++ lastLabels u.hostname 2) := by
    intro u hu
    simp only [identifyCarrier, extractReverseDomainSlug, lastLabels]
    rw [if_neg (by omega)]
  refine ⟨?_, rfl, hslug u1 h1, ?_⟩
  · rw [hslug u1 h1, hslug u2 h2, htld, hdom]
  · intro s hs1 hs2 hs3 hs4
    unfold getCanonicalCarrierSlug
    rw [if_neg hs1, if_neg (by simp [hs2, hs3]), if_neg hs4]

theorem identifyCarrier_suffix_determined_witness :
    identifyCarrier (some wU1) = identifyCarrier (some wU2) :=
  (identifyCarrier_suffix_determined wU1 wU2 (by decide) (by decide)
    (by decide) (by decide)).1

/-- C5: buffer precedence in `processStatement`.  For a statement
carrying both a `fileBuffer` and a `pdfUrl`, the download collaborator is
never invoked (no entry in the download log), the filename defaults to
`"statement.pdf"` when absent, and (when the buffer validates) the upload
receives exactly the carried buffer with that filename.  For a statement
carrying neither, `processStatement` fails with the source's error and
makes no collaborator call. -/
theorem processStatement_buffer_precedence
    (download : String → Except String (List Nat))
    (extractName : String → String)
    (upload : List Nat → UploadOptions → Except String CloudinaryAttachment)
    (st : Statement) (slug : String) :
    (∀ b u, st.fileBuffer = some b → st.pdfUrl = some u →
      (processStatement download extractName upload st slug).2.downloads = [] ∧
      (st.filename = none →
        jsOrStr st.filename "statement.pdf" = "statement.pdf") ∧
      (validatePdfBuffer b = .ok () →
        processStatement download extractName upload st slug =
          (upload b ⟨slug, jsOrStr st.filename "statement.pdf",
             st.statementDate, slug⟩,
           ⟨[], [(b, ⟨slug, jsOrStr st.filename "statement.pdf",
             st.statementDate, slug⟩)]⟩))) ∧
    (st.fileBuffer = none → st.pdfUrl = none →
      processStatement download extractName upload st slug =
        (.error "Statement has neither pdfUrl nor fileBuffer", ⟨[], []⟩)) := by
  constructor
  · intro b u hb hu
    refine ⟨?_, ?_, ?_⟩
    · cases hv : validatePdfBuffer b <;>
        simp [processStatement, hb, hv]
    · intro hf
      rw [hf]
      rfl
    · intro hv
      simp [processStatement, hb, hv]
  · intro hb hu
    simp [processStatement, hb, hu, jsTruthyStr]

theorem processStatement_buffer_precedence_witness :
    (processStatement wDownload wName wUpload wStmtBoth
      "net_abacus").2.downloads = [] :=
  ((processStatement_buffer_precedence wDownload wName wUpload wStmtBoth
      "net_abacus").1 wBuf "https://carrier.example/s.pdf" rfl rfl).1

/-- C6: `mapErrorToFailureReason` is a total function from error-message
strings into the closed five-element taxonomy, classifying by
case-insensitive substring matching against the keyword sets in the
listed order (the first matching set wins, as in the source's if-chain):
invalid credentials / login failed, then mfa / two-factor, then
unavailable / timeout / network, then unknown carrier / script not
found, then password expired / must change password; a message matching
none of the keywords defaults to `carrier_unavailable`.  The final
conjunct is case-insensitivity: the result depends only on the
lower-cased message. -/
theorem mapErrorToFailureReason_taxonomy (msg : String) :
    ((containsSub (jsToLower msg) "invalid credentials"
        || containsSub (jsToLower msg) "login failed") = true →
      mapErrorToFailureReason msg = .invalid_credentials) ∧
    ((containsSub (jsToLower msg) "invalid credentials"
        || containsSub (jsToLower msg) "login failed") = false →
      (containsSub (jsToLower msg) "mfa"
        || containsSub (jsToLower msg) "two-factor") = true →
      mapErrorToFailureReason msg = .requires_mfa) ∧
    ((containsSub (jsToLower msg) "invalid credentials"
        || containsSub (jsToLower msg) "login failed") = false →
      (containsSub (jsToLower msg) "mfa"
        || containsSub (jsToLower msg) "two-factor") = false →
      (containsSub (jsToLower msg) "unavailable"
        || containsSub (jsToLower msg) "timeout"
        || containsSub (jsToLower msg) "network") = true →
      mapErrorToFailureReason msg = .carrier_unavailable) ∧
    ((containsSub (jsToLower msg) "invalid credentials"
        || containsSub (jsToLower msg) "login failed") = false →
      (containsSub (jsToLower msg) "mfa"
        || containsSub (jsToLower msg) "two-factor") = false →
      (containsSub (jsToLower msg) "unavailable"
        || containsSub (jsToLower msg) "timeout"
        || containsSub (jsToLower msg) "network") = false →
      (containsSub (jsToLower msg) "unknown carrier"
        || containsSub (jsToLower msg) "script not found") = true →
      mapErrorToFailureReason msg = .missing_instruction) ∧
    ((containsSub (jsToLower msg) "invalid credentials"
        || containsSub (jsToLower msg) "login failed") = false →
      (containsSub (jsToLower msg) "mfa"
        || containsSub (jsToLower msg) "two-factor") = false →
      (containsSub (jsToLower msg) "unavailable"
        || containsSub (jsToLower msg) "timeout"
        || containsSub (jsToLower msg) "network") = false →
      (containsSub (jsToLower msg) "unknown carrier"
        || containsSub (jsToLower msg) "script not found") = false →
      (containsSub (jsToLower msg) "password expired"
        || containsSub (jsToLower msg) "must change password") = true →
      mapErrorToFailureReason msg = .password_change) ∧
    ((containsSub (jsToLower msg) "invalid credentials"
        || containsSub (jsToLower msg) "login failed") = false →
      (containsSub (jsToLower msg) "mfa"
        || containsSub (jsToLower msg) "two-factor") = false →
      (containsSub (jsToLower msg) "unavailable"
        || containsSub (jsToLower msg) "timeout"
        || containsSub (jsToLower msg) "network") = false →
      (containsSub (jsToLower msg) "unknown carrier"
        || containsSub (jsToLower msg) "script not found") = false →
      (containsSub (jsToLower msg) "password expired"
        || containsSub (jsToLower msg) "must change password") = false →
      mapErrorToFailureReason msg = .carrier_unavailable) ∧
    (∀ m2 : String, jsToLower msg = jsToLower m2 →
      mapErrorToFailureReason msg = mapErrorToFailureReason m2) := by
  refine ⟨?_, ?_, ?_, ?_, ?_, ?_, ?_⟩
  · intro g1
    simp [mapErrorToFailureReason, g1]
  · intro g1 g2
    simp [mapErrorToFailureReason, g1, g2]
  · intro g1 g2 g3
    simp [mapErrorToFailureReason, g1, g2, g3]
  · intro g1 g2 g3 g4
    simp [mapErrorToFailureReason, g1, g2, g3, g4]
  · intro g1 g2 g3 g4 g5
    simp [mapErrorToFailureReason, g1, g2, g3, g4, g5]
  · intro g1 g2 g3 g4 g5
    simp [mapErrorToFailureReason, g1, g2, g3, g4, g5]
  · intro m2 h
    simp only [mapErrorToFailureReason]
    rw [h]

theorem mapErrorToFailureReason_taxonomy_witness :
    mapErrorToFailureReason "MFA required" = .requires_mfa :=
  (mapErrorToFailureReason_taxonomy "MFA required").2.1 (by decide) (by decide)

/-- C4: fast, resource-free rejection of unknown carriers.  For every
job and every collaborator behavior, `executeWorkflow` with slug
`"unknown"` returns `success := false` with no statements and the error
message `"Unknown carrier for URL: "` followed by the job's original
login URL (so the message contains that URL as a substring), and its
event trace is empty — in particular the session-acquisition call is
never made on this path. -/
theorem executeWorkflow_unknown_fast_reject
    (acquire : Except String Unit)
    (runW : String → WorkflowJob → Except String WorkflowResult)
    (job : WorkflowJob) :
    (executeWorkflow acquire runW "unknown" job).2 = [] ∧
    (executeWorkflow acquire runW "unknown" job).1 =
      { success := false, statements := [],
        error := some ("Unknown carrier for URL: " ++ job.login_url) } ∧
    ∃ t1 t2 : String,
      "Unknown carrier for URL: " ++ job.login_url =
        t1 ++ job.login_url ++ t2 := by
  refine ⟨rfl, rfl, "Unknown carrier for URL: ", "", ?_⟩
  simp

/-- C8 counterexample: for the recognized-shape slug `"com_bitco"`
(not `"unknown"`, no registered workflow), the dispatcher's error message
is `"No workflow script implemented for carrier: com_bitco"`, which is
not the claimed `"No workflow implemented for carrier: com_bitco"`. -/
theorem executeWorkflow_unregistered_message_counterexample :
    (executeWorkflow (Except.ok ()) wRunW "com_bitco" wJob).1 =
      { success := false, statements := [],
        error := some "No workflow script implemented for carrier: com_bitco" } ∧
    "No workflow script implemented for carrier: com_bitco" ≠
      "No workflow implemented for carrier: com_bitco" :=
  ⟨by decide, by decide⟩

/-- C8 amended: for every slug other than `"unknown"` and outside the
registered set, once the browser session is acquired, `executeWorkflow`
returns `success := false`, no statements, and the error message exactly
`"No workflow script implemented for carrier: "` followed by the slug
(the word "script" is part of the source's message), with the session
released. -/
theorem executeWorkflow_unregistered_slug_message
    (acquire : Except String Unit)
    (runW : String → WorkflowJob → Except String WorkflowResult)
    (slug : String) (job : WorkflowJob)
    (h0 : slug ≠ "unknown") (h1 : slug ≠ "net_abacus")
    (h2 : slug ≠ "com_advantagepartners") (h3 : slug ≠ "com_amerisafe")
    (ha : acquire = .ok ()) :
    executeWorkflow acquire runW slug job =
      ({ success := false, statements := [],
         error := some ("No workflow script implemented for carrier: "
           ++ slug) },
       [.acquire, .release]) := by
  subst ha
  simp only [executeWorkflow]
  rw [if_neg h0, if_neg (by simp [h1, h2, h3])]

theorem executeWorkflow_unregistered_slug_message_witness :
    executeWorkflow (Except.ok ()) wRunW "com_bitco" wJob =
      ({ success := false, statements := [],
         error := some ("No workflow script implemented for carrier: "
           ++ "com_bitco") },
       [.acquire, .release]) :=
  executeWorkflow_unregistered_slug_message (Except.ok ()) wRunW "com_bitco"
    wJob (by decide) (by decide) (by decide) (by decide) rfl

/-- C7 counterexample: in the run where the statement-processing step
throws with message `"MFA required"`, the orchestrator's generic
catch-all reports `failure_reason = requires_mfa` — not
`carrier_unavailable` — because `src/server.ts` passes the exception
message through `mapErrorToFailureReason` in its final `catch`. -/
theorem processJobAsync_catch_all_counterexample :
    statusReqs (processJobAsync wEnvMfaThrow) =
      [{ status := "failed", failure_reason := some .requires_mfa,
         notes := some "MFA required" }] ∧
    FailureReason.requires_mfa ≠ FailureReason.carrier_unavailable :=
  ⟨by decide, by decide⟩

/-- C7 amended: for every exception that escapes the orchestrator's
steps 2–5 (workflow execution, statement processing, inbox creation)
without having been converted to a workflow failure result, the generic
catch-all reports exactly one job status of `failed` with
`failure_reason = mapErrorToFailureReason(message)` — which is
`carrier_unavailable` precisely when the message matches no more
specific keyword set — and the message as notes. -/
theorem processJobAsync_catch_all_classifies (env : JobEnv) (e : String)
    (r : WorkflowResult) (atts : List CloudinaryAttachment) :
    (env.runAutomation = .error e →
      statusReqs (processJobAsync env) =
        [{ status := "failed",
           failure_reason := some (mapErrorToFailureReason e),
           notes := some e }]) ∧
    (env.runAutomation = .ok r → r.success = true →
      env.processResult = .error e →
      statusReqs (processJobAsync env) =
        [{ status := "failed",
           failure_reason := some (mapErrorToFailureReason e),
           notes := some e }]) ∧
    (env.runAutomation = .ok r → r.success = true →
      env.processResult = .ok atts → 0 < atts.length →
      env.createInbox = .error e →
      statusReqs (processJobAsync env) =
        [{ status := "failed",
           failure_reason := some (mapErrorToFailureReason e),
           notes := some e }]) := by
  refine ⟨?_, ?_, ?_⟩
  · intro h
    simp only [processJobAsync, h]
    unfold catchAllReport
    cases h0 : env.statusOutcome 0 <;>
      simp [statusReqs, statusEvents]
  · intro h hs hp
    simp only [processJobAsync, h, hs, if_true]
    unfold catchAllReport
    cases h0 : env.statusOutcome 0 <;>
      simp [hp, h0, statusReqs, statusEvents]
  · intro h hs hp hl hi
    simp only [processJobAsync, h, hs, if_true, hp]
    rw [if_pos hl]
    unfold catchAllReport
    cases h0 : env.statusOutcome 0 <;>
      simp [hi, h0, statusReqs, statusEvents]

theorem processJobAsync_catch_all_classifies_witness :
    statusReqs (processJobAsync wEnvBoom) =
      [{ status := "failed",
         failure_reason := some (mapErrorToFailureReason "boom"),
         notes := some "boom" }] :=
  (processJobAsync_catch_all_classifies wEnvBoom "boom" ⟨true, [], none⟩
    []).1 rfl

/-- C9 counterexample: in the run where the workflow returns a failure
result and the first Admin API status call itself throws, the
orchestrator makes a second status call from its catch-all, so the
job-status call is not made at most once. -/
theorem processJobAsync_status_twice_counterexample :
    ¬ (statusEvents (processJobAsync wEnvStatusThrow)).length ≤ 1 := by
  decide

/-- C9 amended: within one job's run, at most two Admin API job-status
calls are made; a second call happens only when the first one threw
(`secondCallOnlyAfterThrow`), so at most one status call succeeds; no
status call is made before the workflow step has finished (returned or
thrown); and when the workflow returned a success result, no status call
is made before the pipeline step has finished. -/
theorem processJobAsync_status_call_discipline (env : JobEnv) :
    (statusEvents (processJobAsync env)).length ≤ 2 ∧
    secondCallOnlyAfterThrow (statusEvents (processJobAsync env)) = true ∧
    ((statusEvents (processJobAsync env)).filter (fun p => p.2)).length ≤ 1 ∧
    noStatusBefore JobEvent.isWorkflowDone (processJobAsync env) = true ∧
    (JobEvent.workflowCompleted true ∈ processJobAsync env →
      noStatusBefore JobEvent.isPipelineDone (processJobAsync env) = true) := by
  rcases env with ⟨ra, pr, ci, so⟩
  rcases ra with e | r
  · cases h0 : so 0 <;> cases h1 : so 1 <;>
      simp [processJobAsync, catchAllReport, h0, h1, statusEvents,
        secondCallOnlyAfterThrow, noStatusBefore, JobEvent.isWorkflowDone,
        JobEvent.isPipelineDone, JobEvent.isStatus]
  · rcases r with ⟨succ, stmts, err⟩
    cases succ
    · cases h0 : so 0 <;> cases h1 : so 1 <;>
        simp [processJobAsync, catchAllReport, h0, h1, statusEvents,
          secondCallOnlyAfterThrow, noStatusBefore, JobEvent.isWorkflowDone,
          JobEvent.isPipelineDone, JobEvent.isStatus]
    · rcases pr with pe | atts
      · cases h0 : so 0 <;> cases h1 : so 1 <;>
          simp [processJobAsync, catchAllReport, h0, h1, statusEvents,
            secondCallOnlyAfterThrow, noStatusBefore, JobEvent.isWorkflowDone,
            JobEvent.isPipelineDone, JobEvent.isStatus]
      · by_cases hl : 0 < atts.length
        · rcases ci with ce | cids
          · cases h0 : so 0 <;> cases h1 : so 1 <;>
              simp [processJobAsync, catchAllReport, hl, h0, h1, statusEvents,
                secondCallOnlyAfterThrow, noStatusBefore,
                JobEvent.isWorkflowDone, JobEvent.isPipelineDone,
                JobEvent.isStatus]
          · cases h0 : so 0 <;> cases h1 : so 1 <;>
              simp [processJobAsync, catchAllReport, hl, h0, h1, statusEvents,
                secondCallOnlyAfterThrow, noStatusBefore,
                JobEvent.isWorkflowDone, JobEvent.isPipelineDone,
                JobEvent.isStatus]
        · cases h0 : so 0 <;> cases h1 : so 1 <;>
            simp [processJobAsync, catchAllReport, hl, h0, h1, statusEvents,
              secondCallOnlyAfterThrow, noStatusBefore,
              JobEvent.isWorkflowDone, JobEvent.isPipelineDone,
              JobEvent.isStatus]

theorem processJobAsync_status_call_discipline_witness :
    noStatusBefore JobEvent.isPipelineDone (processJobAsync wEnvHappy) = true :=
  (processJobAsync_status_call_discipline wEnvHappy).2.2.2.2 (by decide)
